import Mathlib

/-!
Verification development for the train-tracker page
(`src/frontend/pages/train-tracker.tsx`) of the Railway DSS repository.

The page is a React function component.  Its state hooks are embedded as a
record `ComponentState`; the event handlers (`fetchAllTrains`, `searchTrains`,
`selectTrain`) are embedded as pure state transformers that additionally take
the network outcome as an explicit argument, since the HTTP transport is an
external collaborator.  JavaScript exceptions thrown inside the handlers are
caught by the handlers own try/catch blocks, so each handler is total; the
embedding reproduces exactly which state setters have already run when a throw
happens.

Numeric payload fields of a train record (coordinates, speed, distances,
delay, progress) are carried as integers: no claim computes with them, they
are opaque data whose only role is to distinguish records.

A central wiring fact of the source, reproduced by the embedding: the mount
effect `useEffect(() => { fetchAllTrains(); const interval =
setInterval(fetchAllTrains, 5000); ... }, [])` (lines 40-46) registers the
FIRST render closure of `fetchAllTrains`.  That closure reads the render-scope
binding `selectedTrain`, whose value in the first render is `null`.  Every
later invocation through the interval therefore runs with the captured
`selectedTrain = null`, while the state setters (`setAllTrains`,
`setLastUpdated`, `setSelectedTrain`) still write the live state.  The
embedding makes the captured binding an explicit parameter `capturedSelected`
of `fetchAllTrains`, and `pollStep` instantiates it with `none`, which is what
the installed interval does on every tick.
-/

/-- One stop of a route, from the `route` array element type
(lines 22-28 of the source). -/
structure RouteStop where
  station : String
  lat : Int
  lon : Int
  time : String
  distance : Int
deriving Repr, DecidableEq

/-- The `TrainPosition` interface (lines 5-29 of the source). -/
structure TrainPosition where
  trainId : Int
  trainName : String
  trainNumber : String
  currentLat : Int
  currentLon : Int
  speed : Int
  heading : Int
  lastStation : String
  nextStation : String
  distanceToNext : Int
  totalDistance : Int
  distanceCovered : Int
  delay : Int
  status : String
  estimatedArrival : String
  progress : Int
  route : List RouteStop
deriving Repr, DecidableEq

/-- The component state: the six `useState` hooks of `TrainTracker`
(lines 32-37).  `lastUpdated` is a timestamp (`Date` in the source) modelled
as a natural number. -/
structure ComponentState where
  searchQuery : String
  selectedTrain : Option TrainPosition
  allTrains : List TrainPosition
  loading : Bool
  error : Option String
  lastUpdated : Option Nat
deriving Repr, DecidableEq

/-- The initial state of the hooks (lines 32-37): empty query, no selection,
empty fleet, not loading, no error, never updated. -/
def initialState : ComponentState :=
  { searchQuery := ""
    selectedTrain := none
    allTrains := []
    loading := false
    error := none
    lastUpdated := none }

/-- Body of a fleet response: the `trains` field of the JSON returned by
`GET /api/live-location/trains`.  `none` stands for a body whose `trains`
field is absent or otherwise falsy (`undefined`, `null`, `false`, `0`,
`NaN`, `""`): for all of those, line 53 defaults the value to the empty
array, and with a held selection the later `data.trains.find` access or call
throws.  A truthy value of non-array shape behaves differently — it flows
into `setAllTrains` unchanged — and is not representable in this typed body;
that case is covered by the dynamically typed embedding `fetchAllTrainsDyn`
below. -/
structure TrainsBody where
  trains : Option (List TrainPosition)
deriving Repr, DecidableEq

/-- Outcome of the `apiGet` call made by `fetchAllTrains`:
either the promise rejects (network error, modelled as `networkError`)
or a response arrives with its `ok` flag and parsed JSON body. -/
inductive FetchOutcome where
  | networkError : FetchOutcome
  | response (ok : Bool) (body : TrainsBody) : FetchOutcome
deriving Repr, DecidableEq

/-- Body of a search response: the `results` field of the JSON returned by
`GET /api/live-location/search`.  `none` stands for a body whose `results`
field is absent or `null` — the values on which reading `.length` on line 80
throws, landing in the catch block. -/
structure SearchBody where
  results : Option (List TrainPosition)
deriving Repr, DecidableEq

/-- Outcome of the `apiGet` call made by `searchTrains`. -/
inductive SearchOutcome where
  | networkError : SearchOutcome
  | response (ok : Bool) (body : SearchBody) : SearchOutcome
deriving Repr, DecidableEq

/-- Embedding of `fetchAllTrains` (lines 48-67).  `capturedSelected` is the
value of the render-scope binding `selectedTrain` captured by the closure that
is running (see the header comment); `now` is the clock value `new Date()`
reads; `outcome` is the result of the awaited `apiGet`.

The source, step by step:
on a rejected promise the catch block only logs, so the state is unchanged;
if `response.ok` is false nothing runs, state unchanged;
if `response.ok` is true, `setAllTrains(data.trains || [])` and
`setLastUpdated(new Date())` run first; then, when the captured
`selectedTrain` is non-null, `data.trains.find(...)` runs — if `data.trains`
is absent or otherwise falsy this member access or call throws, the throw
lands in the same catch block, and the two setters that already ran keep
their effect; otherwise `setSelectedTrain(updated)` runs when a record with
the captured id is found. -/
def fetchAllTrains (capturedSelected : Option TrainPosition) (now : Nat)
    (outcome : FetchOutcome) (s : ComponentState) : ComponentState :=
  match outcome with
  | .networkError => s
  | .response ok body =>
    if ok then
      let s1 : ComponentState :=
        { s with allTrains := body.trains.getD [], lastUpdated := some now }
      match capturedSelected with
      | none => s1
      | some sel =>
        match body.trains with
        | none => s1
        | some ts =>
          match ts.find? (fun t => t.trainId == sel.trainId) with
          | some updated => { s1 with selectedTrain := some updated }
          | none => s1
    else s

/-- One tick of the installed poller, as wired by the mount effect
(lines 40-46): the interval invokes the first render closure of
`fetchAllTrains`, whose captured `selectedTrain` is the initial `null`. -/
def pollStep (now : Nat) (outcome : FetchOutcome) (s : ComponentState) :
    ComponentState :=
  fetchAllTrains none now outcome s

/-- The dynamically typed value of the `trains` field of a successful fleet
response body.  JavaScript gives `data.trains` one of: a missing field or
another falsy value (`undefined`, `null`, `false`, `0`, `NaN`, `""`), an
array (here: of train records), or a truthy value of some other shape
(a non-zero number, a non-empty string, a plain object, ...). -/
inductive TrainsField where
  | falsy : TrainsField
  | arr (ts : List TrainPosition) : TrainsField
  | junk : TrainsField
deriving Repr, DecidableEq

/-- What the `allTrains` hook holds once dynamically typed values are
admitted: the list the rendering expects, or a truthy non-array value that
`setAllTrains` was handed unchanged. -/
inductive AllTrainsValue where
  | list (ts : List TrainPosition) : AllTrainsValue
  | junk : AllTrainsValue
deriving Repr, DecidableEq

/-- The expression `data.trains || []` of line 53 over the dynamically typed
field: a falsy value defaults to the empty array, while any truthy value —
an array or not — passes through unchanged. -/
def trainsOrEmptyArray : TrainsField → AllTrainsValue
  | .falsy => .list []
  | .arr ts => .list ts
  | .junk => .junk

/-- Component state over the dynamically typed `allTrains` value; the other
hooks are as in `ComponentState`. -/
structure DynState where
  searchQuery : String
  selectedTrain : Option TrainPosition
  allTrains : AllTrainsValue
  loading : Bool
  error : Option String
  lastUpdated : Option Nat
deriving Repr, DecidableEq

/-- The initial hook values (lines 32-37) over the dynamic state. -/
def dynInitialState : DynState :=
  { searchQuery := ""
    selectedTrain := none
    allTrains := .list []
    loading := false
    error := none
    lastUpdated := none }

/-- The success path of `fetchAllTrains` (lines 50-62) over the dynamically
typed `trains` field, for a response with `ok` true.
`setAllTrains(data.trains || [])` and `setLastUpdated(new Date())` run
first.  When the captured selection is non-null the code then evaluates
`data.trains.find(...)`: on a falsy field the member access or call throws,
and on a truthy non-array value `data.trains.find` is not a function, so the
call throws too; either throw lands in the catch block (which only logs),
keeping the effect of the two setters that already ran.  Only an actual
array reaches the `find`, after which `setSelectedTrain(updated)` runs when
a record with the captured id is found. -/
def fetchAllTrainsDyn (capturedSelected : Option TrainPosition) (now : Nat)
    (trains : TrainsField) (s : DynState) : DynState :=
  let s1 : DynState :=
    { s with allTrains := trainsOrEmptyArray trains, lastUpdated := some now }
  match capturedSelected with
  | none => s1
  | some sel =>
    match trains with
    | .falsy => s1
    | .junk => s1
    | .arr ts =>
      match ts.find? (fun t => t.trainId == sel.trainId) with
      | some updated => { s1 with selectedTrain := some updated }
      | none => s1

/-- The JavaScript `String.prototype.trim` used on line 70: removes leading
and trailing whitespace.  Written structurally over the character list so
that concrete states evaluate by reduction. -/
def jsTrim (s : String) : String :=
  String.mk (((s.data.dropWhile Char.isWhitespace).reverse.dropWhile
    Char.isWhitespace).reverse)

/-- Embedding of `searchTrains` (lines 69-93).  An empty trimmed query
returns before any request is made (the `outcome` argument is unread on that
path).  Otherwise `setLoading(true)` and `setError(null)` run before the
request; after the response: a rejected promise or a throw while reading
`data.results` (absent field) lands in the catch block which sets the
connection-error message; a non-ok response sets the failed message; an ok
response with a parsed `results` array selects the first element when the
array is non-empty and sets the no-match message when it is empty.  The
`finally` block sets `loading` back to false on every path. -/
def searchTrains (outcome : SearchOutcome) (s : ComponentState) :
    ComponentState :=
  if jsTrim s.searchQuery = "" then s
  else
    let s1 : ComponentState := { s with loading := true, error := none }
    match outcome with
    | .networkError =>
      { s1 with loading := false
                error := some "Search error. Please check your connection." }
    | .response ok body =>
      if ok then
        match body.results with
        | none =>
          { s1 with loading := false
                    error := some "Search error. Please check your connection." }
        | some [] =>
          { s1 with loading := false
                    error := some "No trains found matching your search" }
        | some (r :: _) =>
          { s1 with loading := false, selectedTrain := some r }
      else
        { s1 with loading := false
                  error := some "Search failed. Please try again." }

/-- Embedding of `selectTrain` (lines 95-98): manual selection from the
train list. -/
def selectTrain (train : TrainPosition) (s : ComponentState) :
    ComponentState :=
  { s with selectedTrain := some train, error := none }

/-- Embedding of `getStatusColor` (lines 100-111): a switch on the
lower-cased status string returning a CSS class pair. -/
def getStatusColor (status : String) : String :=
  match status.toLower with
  | "proceed" => "text-green-600 bg-green-50"
  | "on time" => "text-green-600 bg-green-50"
  | "warning" => "text-amber-600 bg-amber-50"
  | "delayed" => "text-amber-600 bg-amber-50"
  | "hold" => "text-red-600 bg-red-50"
  | "stopped" => "text-red-600 bg-red-50"
  | "early" => "text-blue-600 bg-blue-50"
  | _ => "text-gray-600 bg-gray-50"

/-- Abstract color classification named by the specification. -/
inductive StatusClass where
  | success : StatusClass
  | caution : StatusClass
  | danger : StatusClass
  | info : StatusClass
  | neutral : StatusClass
deriving Repr, DecidableEq

/-- Reads the CSS class pair produced by `getStatusColor` back as the
abstract classification it renders (green = success, amber = caution,
red = danger, blue = info, gray = neutral). -/
def classOfCss (css : String) : StatusClass :=
  if css = "text-green-600 bg-green-50" then .success
  else if css = "text-amber-600 bg-amber-50" then .caution
  else if css = "text-red-600 bg-red-50" then .danger
  else if css = "text-blue-600 bg-blue-50" then .info
  else .neutral

/-- Asynchronous events of the running page: a tick of the interval installed
by the mount effect (which starts one fleet request), the arrival of the
response to one outstanding fleet request, and the arrival of a search
response.  The source installs the interval with `setInterval(fetchAllTrains,
5000)` and nothing in it consults whether an earlier request is still
pending, so `pollTick` is enabled in every state. -/
inductive SysEvent where
  | pollTick : SysEvent
  | pollDone (now : Nat) (outcome : FetchOutcome) : SysEvent
  | searchDone (outcome : SearchOutcome) : SysEvent
deriving Repr, DecidableEq

/-- Component state together with the number of fleet requests started but
not yet answered. -/
structure SysState where
  comp : ComponentState
  pollsInFlight : Nat
deriving Repr, DecidableEq

/-- State after the mount effect has run (lines 40-46): the interval is
installed; the immediate `fetchAllTrains()` call is a first poll, represented
by its own `pollTick` event. -/
def initialSys : SysState :=
  { comp := initialState, pollsInFlight := 0 }

/-- One step of the event system.  A tick starts a new fleet request
unconditionally.  A fleet response can only arrive when a request is
outstanding; applying it runs the captured first-render closure of
`fetchAllTrains` to completion — JavaScript runs each continuation between
awaits without preemption, so the setter calls of one handler are never
interleaved with those of another. -/
def sysStep (st : SysState) (e : SysEvent) : Option SysState :=
  match e with
  | .pollTick => some { st with pollsInFlight := st.pollsInFlight + 1 }
  | .pollDone now outcome =>
    match st.pollsInFlight with
    | 0 => none
    | n + 1 =>
      some { comp := fetchAllTrains none now outcome st.comp
             pollsInFlight := n }
  | .searchDone outcome =>
    some { st with comp := searchTrains outcome st.comp }

/-- Runs a sequence of events from a state. -/
def sysRun (st : SysState) : List SysEvent → Option SysState
  | [] => some st
  | e :: es => (sysStep st e).bind (fun st1 => sysRun st1 es)

/-- The closed status mapping written in the specification (section 4.5):
proceed and on-time map to success, warning and delayed to caution, hold and
stopped to danger, early to info, anything else to neutral.  The mapping is
read over status values compared case-insensitively, matching the open
enumeration of section 3 whose on-time status is the string "on time". -/
def specStatusClass (status : String) : StatusClass :=
  match status.toLower with
  | "proceed" => .success
  | "on time" => .success
  | "warning" => .caution
  | "delayed" => .caution
  | "hold" => .danger
  | "stopped" => .danger
  | "early" => .info
  | _ => .neutral

/-- A concrete train record with id 7, as known before a refresh. -/
def train7stale : TrainPosition :=
  { trainId := 7
    trainName := "Mumbai Rajdhani"
    trainNumber := "12951"
    currentLat := 19
    currentLon := 72
    speed := 50
    heading := 0
    lastStation := "Mumbai Central"
    nextStation := "Borivali"
    distanceToNext := 20
    totalDistance := 1384
    distanceCovered := 10
    delay := 0
    status := "on time"
    estimatedArrival := "08:30"
    progress := 1
    route := [] }

/-- The same train, id 7, as reported by a later snapshot. -/
def train7fresh : TrainPosition :=
  { train7stale with speed := 90, distanceCovered := 60, progress := 4 }

/-- A concrete train record with id 5. -/
def train5 : TrainPosition :=
  { train7stale with trainId := 5, trainName := "Shatabdi", trainNumber := "12009" }

/-- A concrete train record with id 9. -/
def train9 : TrainPosition :=
  { train7stale with trainId := 9, trainName := "Duronto", trainNumber := "12261" }

/-- A concrete component state holding a non-empty query and a selection. -/
def searchDemoState : ComponentState :=
  { initialState with searchQuery := "express", selectedTrain := some train5 }

/-- The re-binding branch of `fetchAllTrains` does implement the intended
update when the closure captures the live selection: with `capturedSelected`
equal to the selected record and the snapshot containing a record with the
selected id, the selection becomes that record.  The installed interval never
runs the function this way: it always passes the first-render capture
`none`. -/
theorem fetchAllTrains_rebind_with_fresh_closure (now : Nat)
    (sel updated : TrainPosition) (ts : List TrainPosition) (s : ComponentState)
    (hfind : ts.find? (fun t => t.trainId == sel.trainId) = some updated) :
    (fetchAllTrains (some sel) now (.response true ⟨some ts⟩) s).selectedTrain
      = some updated := by
  simp [fetchAllTrains, hfind]

/-- C1: the claim states that applying a successful snapshot while a
selection on id X is held re-binds the selection to the new snapshot record
for X.  The code evaluated at a failing input: from a state holding a
selection on id 7 (record `train7stale`), a poll tick applying a successful
snapshot that contains id 7 with fresh data (`train7fresh`) installs the
snapshot into `allTrains` but leaves the selection on the stale record,
because the interval runs the first-render closure whose captured
`selectedTrain` is `null`, so the re-binding branch of lines 56-62 never
executes. -/
theorem c1_selection_rebinding_fails_at_input :
    (pollStep 1 (.response true ⟨some [train7fresh]⟩)
        (selectTrain train7stale initialState)).selectedTrain = some train7stale
    ∧ (pollStep 1 (.response true ⟨some [train7fresh]⟩)
        (selectTrain train7stale initialState)).allTrains = [train7fresh]
    ∧ train7stale ≠ train7fresh := by decide

/-- C2: every successful fleet fetch whose body parses a `trains` array
replaces `allTrains` wholesale with the fetched list, for every prior state,
every captured closure value and every clock value; in particular a prior
fleet is fully discarded, so a fleet of records 1,2,3 followed by a fetched
fleet of records 1,3 leaves exactly the records 1,3. -/
theorem c2_snapshot_replacement (cap : Option TrainPosition) (now : Nat)
    (ts : List TrainPosition) (s : ComponentState) :
    (fetchAllTrains cap now (.response true ⟨some ts⟩) s).allTrains = ts := by
  cases cap with
  | none => rfl
  | some sel =>
    simp only [fetchAllTrains]
    cases ts.find? (fun t => t.trainId == sel.trainId) <;> rfl

/-- C3: a successful search with at least one result sets the selection to
exactly the first result, regardless of the prior selection; and a subsequent
poll whose snapshot contains both the old id and the new id leaves the
selection on the new record. -/
theorem c3_search_override (s : ComponentState) (old r : TrainPosition)
    (rs ts : List TrainPosition) (now : Nat)
    (hq : ¬ jsTrim s.searchQuery = "")
    (hsel : s.selectedTrain = some old)
    (holdId : ∃ t ∈ ts, t.trainId = old.trainId)
    (hnewId : ∃ t ∈ ts, t.trainId = r.trainId) :
    (searchTrains (.response true ⟨some (r :: rs)⟩) s).selectedTrain = some r
    ∧ (pollStep now (.response true ⟨some ts⟩)
        (searchTrains (.response true ⟨some (r :: rs)⟩) s)).selectedTrain
      = some r := by
  constructor
  · simp [searchTrains, hq]
  · simp [searchTrains, pollStep, fetchAllTrains, hq]

/-- Witness for C3: a state with query "express" and selection on id 5, a
search returning id 9, then a poll containing both ids 5 and 9. -/
theorem c3_search_override_witness :
    (searchTrains (.response true ⟨some [train9]⟩) searchDemoState).selectedTrain
      = some train9
    ∧ (pollStep 2 (.response true ⟨some [train5, train9]⟩)
        (searchTrains (.response true ⟨some [train9]⟩) searchDemoState)).selectedTrain
      = some train9 :=
  c3_search_override searchDemoState train5 train9 [] [train5, train9] 2
    (by decide) rfl ⟨train5, by decide, by decide⟩ ⟨train9, by decide, by decide⟩

/-- C4 counterexample: the claim states that a poll invocation is never
started while the previous poll is still in flight.  From the mounted state,
the event sequence of two consecutive interval ticks with no intervening
response is accepted by the system and leaves two fleet requests in flight:
the interval installed on line 44 starts `fetchAllTrains` on every tick with
no in-flight guard, so the second poll starts while the first is pending. -/
theorem c4_overlapping_polls_counterexample :
    (sysRun initialSys [.pollTick, .pollTick]).map SysState.pollsInFlight
      = some 2 := rfl

/-- C4 amended: applications of poll results and search results to the state
are atomic — every accepted event either leaves the component state unchanged
or transforms it by one complete handler invocation (`fetchAllTrains` with the
first-render capture, or `searchTrains`), never by a partial interleaving —
but overlapping polls are neither serialized nor dropped (see the
counterexample). -/
theorem c4_atomic_result_application (st st1 : SysState) (e : SysEvent)
    (h : sysStep st e = some st1) :
    st1.comp = st.comp
    ∨ (∃ now outcome, st1.comp = fetchAllTrains none now outcome st.comp)
    ∨ (∃ outcome, st1.comp = searchTrains outcome st.comp) := by
  cases e with
  | pollTick =>
    simp only [sysStep, Option.some.injEq] at h
    left
    rw [← h]
  | pollDone now outcome =>
    simp only [sysStep] at h
    cases hn : st.pollsInFlight with
    | zero => rw [hn] at h; exact absurd h (by simp)
    | succ n =>
      rw [hn] at h
      simp only [Option.some.injEq] at h
      right; left
      exact ⟨now, outcome, by rw [← h]⟩
  | searchDone outcome =>
    simp only [sysStep, Option.some.injEq] at h
    right; right
    exact ⟨outcome, by rw [← h]⟩

/-- Witness for the amended C4, at the concrete accepted event of a first
interval tick from the mounted state. -/
theorem c4_atomic_result_application_witness :
    sysStep initialSys .pollTick
      = some { comp := initialState, pollsInFlight := 1 }
    ∧ (({ comp := initialState, pollsInFlight := 1 } : SysState).comp
        = initialSys.comp
      ∨ (∃ now outcome,
          ({ comp := initialState, pollsInFlight := 1 } : SysState).comp
            = fetchAllTrains none now outcome initialSys.comp)
      ∨ (∃ outcome,
          ({ comp := initialState, pollsInFlight := 1 } : SysState).comp
            = searchTrains outcome initialSys.comp)) :=
  ⟨rfl, c4_atomic_result_application initialSys
    { comp := initialState, pollsInFlight := 1 } .pollTick rfl⟩

/-- C5 counterexample: the claim states that applying the identical snapshot
twice in a row yields an identical state, including `lastUpdated`.  Applying
the same successful snapshot at clock 0 and again at clock 1 yields a state
differing from the first application: `setLastUpdated(new Date())` on line 54
stamps every successful fetch, so `lastUpdated` moves from 0 to 1. -/
theorem c5_replay_counterexample :
    fetchAllTrains none 1 (.response true ⟨some [train7fresh]⟩)
        (fetchAllTrains none 0 (.response true ⟨some [train7fresh]⟩) initialState)
      ≠ fetchAllTrains none 0 (.response true ⟨some [train7fresh]⟩) initialState := by
  decide

/-- C5 amended: replay is idempotent up to the refresh timestamp — applying
the identical fetch outcome twice in a row produces exactly the state of a
single application at the second clock value, for every state, outcome and
captured closure value; every field other than `lastUpdated` is therefore
unchanged by the replay. -/
theorem c5_replay_idempotent_up_to_timestamp (cap : Option TrainPosition)
    (now1 now2 : Nat) (outcome : FetchOutcome) (s : ComponentState) :
    fetchAllTrains cap now2 outcome (fetchAllTrains cap now1 outcome s)
      = fetchAllTrains cap now2 outcome s := by
  cases outcome with
  | networkError => rfl
  | response ok body =>
    cases ok with
    | false => rfl
    | true =>
      cases cap with
      | none => rfl
      | some sel =>
        cases body with
        | mk trains =>
          cases trains with
          | none => rfl
          | some ts =>
            simp only [fetchAllTrains]
            cases ts.find? (fun t => t.trainId == sel.trainId) <;> rfl

/-- C6 counterexample: the claim states that every successful response with
an absent or malformed `trains` field is processed as an empty fleet with
entities becoming empty.  A malformed field that is a truthy non-array value
(for example the body with `trains` equal to the number 5) refutes this:
line 53 evaluates `data.trains || []` to the truthy value itself, so
`setAllTrains` installs the junk value and the entities do not become
empty. -/
theorem c6_junk_trains_counterexample :
    (fetchAllTrainsDyn none 1 .junk dynInitialState).allTrains
      ≠ .list [] := by decide

/-- C6 amended: a successful response whose `trains` field is absent or
otherwise falsy is processed as an empty fleet — entities become the empty
list, the refresh timestamp is stamped, and every other field, the selection
and the user-visible `error` included, is left as it was — for every current
state (a held selection included) and every captured closure value.  A
malformed `trains` field that is truthy and not an array is instead
installed into the entities unchanged — the entities are not emptied —
though still with the timestamp stamped, all other fields untouched and no
error condition raised. -/
theorem c6_trains_field_normalization (cap : Option TrainPosition)
    (now : Nat) (s : DynState) :
    fetchAllTrainsDyn cap now .falsy s
      = { s with allTrains := .list [], lastUpdated := some now }
    ∧ fetchAllTrainsDyn cap now .junk s
      = { s with allTrains := .junk, lastUpdated := some now } := by
  cases cap <;> exact ⟨rfl, rfl⟩

/-- C7: a failed fleet fetch — a rejected request or a response with a
non-success status — leaves the entire component state unchanged: entities,
selection, refresh timestamp and the user-visible `error` all keep their
values, for every state, body and captured closure value. -/
theorem c7_fetch_failure_leaves_state (cap : Option TrainPosition) (now : Nat)
    (body : TrainsBody) (s : ComponentState) :
    fetchAllTrains cap now .networkError s = s
    ∧ fetchAllTrains cap now (.response false body) s = s :=
  ⟨rfl, rfl⟩

/-- C8: a search returning zero results sets the no-match message, leaving
the selection and the entities untouched; its message differs from the one
set by a non-success response and from the one set by a rejected request; and
neither failure mode alters the selection or the entities. -/
theorem c8_search_nonsuccess_conditions (s : ComponentState) (body : SearchBody)
    (hq : ¬ jsTrim s.searchQuery = "") :
    (searchTrains (.response true ⟨some []⟩) s
      = { s with loading := false, error := some "No trains found matching your search" })
    ∧ (searchTrains (.response true ⟨some []⟩) s).error
        ≠ (searchTrains (.response false body) s).error
    ∧ (searchTrains (.response true ⟨some []⟩) s).error
        ≠ (searchTrains .networkError s).error
    ∧ (searchTrains (.response false body) s).selectedTrain = s.selectedTrain
    ∧ (searchTrains (.response false body) s).allTrains = s.allTrains
    ∧ (searchTrains .networkError s).selectedTrain = s.selectedTrain
    ∧ (searchTrains .networkError s).allTrains = s.allTrains := by
  refine ⟨?_, ?_, ?_, ?_, ?_, ?_, ?_⟩ <;> simp [searchTrains, hq]

/-- Witness for C8 at the concrete state with query "express" and a held
selection, the non-success body taken with an unparsable `results` field. -/
theorem c8_search_nonsuccess_conditions_witness :
    (¬ jsTrim searchDemoState.searchQuery = "")
    ∧ ((searchTrains (.response true ⟨some []⟩) searchDemoState
      = { searchDemoState with loading := false, error := some "No trains found matching your search" })
    ∧ (searchTrains (.response true ⟨some []⟩) searchDemoState).error
        ≠ (searchTrains (.response false ⟨none⟩) searchDemoState).error
    ∧ (searchTrains (.response true ⟨some []⟩) searchDemoState).error
        ≠ (searchTrains .networkError searchDemoState).error
    ∧ (searchTrains (.response false ⟨none⟩) searchDemoState).selectedTrain
        = searchDemoState.selectedTrain
    ∧ (searchTrains (.response false ⟨none⟩) searchDemoState).allTrains
        = searchDemoState.allTrains
    ∧ (searchTrains .networkError searchDemoState).selectedTrain
        = searchDemoState.selectedTrain
    ∧ (searchTrains .networkError searchDemoState).allTrains
        = searchDemoState.allTrains) :=
  ⟨by decide, c8_search_nonsuccess_conditions searchDemoState ⟨none⟩ (by decide)⟩

/-- C9: for every status string, the color class produced by
`getStatusColor` renders exactly the closed classification written in the
specification: proceed and on-time map to success, warning and delayed to
caution, hold and stopped to danger, early to info, anything else to
neutral. -/
theorem c9_status_color_classification (status : String) :
    classOfCss (getStatusColor status) = specStatusClass status := by
  unfold getStatusColor specStatusClass
  split <;> rfl

/-- C10: a successful search with at least one result changes only the
selection and the transient loading and error fields — the selection becomes
the first result record taken directly from the response, `loading` ends
false, `error` ends cleared — and `allTrains` and `lastUpdated` keep their
prior values, so the selected id may be absent from the entities until the
next poll. -/
theorem c10_search_success_frame (s : ComponentState) (r : TrainPosition)
    (rs : List TrainPosition) (hq : ¬ jsTrim s.searchQuery = "") :
    searchTrains (.response true ⟨some (r :: rs)⟩) s
      = { s with selectedTrain := some r, loading := false, error := none } := by
  simp [searchTrains, hq]

/-- Witness for C10: the search returns the record with id 9, which is not in
the entities list of the resulting state. -/
theorem c10_search_success_frame_witness :
    (¬ jsTrim searchDemoState.searchQuery = "")
    ∧ searchTrains (.response true ⟨some [train9]⟩) searchDemoState
      = { searchDemoState with selectedTrain := some train9, loading := false, error := none } :=
  ⟨by decide, c10_search_success_frame searchDemoState train9 [] (by decide)⟩
